import Mathlib

set_option maxHeartbeats 1000000

/- Verification development for the sqlwire placeholder-resolution core.
   The definitions below are a shallow embedding of src/lib.rs, src/value.rs
   and src/result.rs: Rust in-place mutation of syntax-tree nodes becomes
   explicit state passing (each resolver returns the new node together with
   an outcome), the question-mark operator becomes early-out on a non-ok
   outcome that keeps the partial mutations performed so far, and a process
   abort (an out-of-bounds slice, a failed unwrap, or a reached todo marker)
   is the dedicated outcome constructor distinct from a recoverable error. -/

/-- Arbitrary-precision decimal payload (the external bigdecimal crate).
The resolver carries numbers verbatim and never computes with them, so only
the payload identity matters here. -/
structure BigDecimal where
  digits : Int
  scale : Int
  deriving DecidableEq, Repr

/-- Error enum from src/result.rs. -/
inductive Error where
  | JSON : String → Error
  | Notfound : String → Error
  deriving DecidableEq, Repr

/-- Execution outcome of an embedded Rust function: a normal return value,
a recoverable Err propagated by the question-mark operator, or an
unconditional process abort. -/
inductive Outcome (α : Type) where
  | ok : α → Outcome α
  | err : Error → Outcome α
  | panic : Outcome α
  deriving DecidableEq, Repr

/-- Returns true exactly when the outcome is a recoverable NotFound error. -/
def Outcome.isNotfoundErr {α : Type} : Outcome α → Bool
  | Outcome.err (Error.Notfound _) => true
  | _ => false

/-- Value model from src/value.rs. -/
inductive Value where
  | Bool : Bool → Value
  | Number : BigDecimal → Value
  | String : String → Value
  | TypedString : String → String → Value
  | Array : List Value → Value
  | Dict : List (Value × Value) → Value
  | Null : Value

/-- Declared type of a typed literal (sqlparser DataType restricted to the
shapes this crate produces or merely carries along). -/
inductive DataType where
  | Date : DataType
  | Unspecified : DataType
  | Custom : String → DataType

/-- Literal payload of a value expression node (sqlparser ast::Value
restricted to the shapes this crate matches or produces; further literal
kinds behave exactly like the non-placeholder ones listed here, falling to
the default arm of the resolver). -/
inductive AstValue where
  | Placeholder : String → AstValue
  | Boolean : Bool → AstValue
  | Number : BigDecimal → Bool → AstValue
  | SingleQuotedString : String → AstValue
  | Null : AstValue

mutual
/-- Expression nodes (sqlparser ast::Expr): every shape the resolver handles,
plus representative unhandled shapes (typed strings, maps, identifiers,
function calls, tuples) that fall to its default arm. Payload positions the
resolver never inspects (operators, alias names, escape characters, interval
metadata) are carried as plain data. -/
inductive Expr where
  | Value : AstValue → Expr
  | TypedString : DataType → String → Expr
  | IsNull : Expr → Expr
  | IsNotNull : Expr → Expr
  | InList : Expr → List Expr → Bool → Expr
  | InSubquery : Expr → Query → Bool → Expr
  | Between : Expr → Bool → Expr → Expr → Expr
  | Like : Expr → Bool → Expr → Option String → Expr
  | ILike : Expr → Bool → Expr → Option String → Expr
  | BinaryOp : Expr → String → Expr → Expr
  | UnaryOp : String → Expr → Expr
  | Nested : Expr → Expr
  | Exists : Query → Bool → Expr
  | Subquery : Query → Expr
  | Case : Option Expr → List Expr → List Expr → Option Expr → Expr
  | Interval : Expr → Option String → Expr
  | Array : List Expr → Bool → Expr
  | Map : List (Expr × Expr) → Expr
  | Identifier : String → Expr
  | CompoundIdentifier : List String → Expr
  | Function : String → List Expr → Expr
  | Tuple : List Expr → Expr

/-- Query node (sqlparser ast::Query): an optional with-clause of named CTE
bodies, the body, and the query-level order-by, limit, offset and fetch
clauses. The resolver only ever touches the body. -/
inductive Query where
  | mk : Option (List (String × Query)) → SetExpr → List Expr → Option Expr →
      Option Expr → Option Expr → Query

/-- Query body (sqlparser ast::SetExpr). -/
inductive SetExpr where
  | Select : SelectBody → SetExpr
  | Values : List (List Expr) → SetExpr
  | SetOperation : String → SetExpr → SetExpr → SetExpr
  | QueryBody : Query → SetExpr
  | Table : SetExpr

/-- Select body (sqlparser ast::Select restricted to the fields the resolver
touches): projection, optional selection, group-by, optional having. -/
inductive SelectBody where
  | mk : List SelectItem → Option Expr → GroupByExpr → Option Expr → SelectBody

/-- Projection item (sqlparser ast::SelectItem). -/
inductive SelectItem where
  | UnnamedExpr : Expr → SelectItem
  | ExprWithAlias : Expr → String → SelectItem
  | QualifiedWildcard : String → SelectItem
  | Wildcard : SelectItem

/-- Group-by clause (sqlparser ast::GroupByExpr); the second component of the
expression form carries the group-by modifiers the resolver ignores. -/
inductive GroupByExpr where
  | All : GroupByExpr
  | Expressions : List Expr → List String → GroupByExpr
end

def Query.with_ : Query → Option (List (String × Query))
  | Query.mk w _ _ _ _ _ => w

def Query.body : Query → SetExpr
  | Query.mk _ b _ _ _ _ => b

def Query.order_by : Query → List Expr
  | Query.mk _ _ ob _ _ _ => ob

def Query.limit : Query → Option Expr
  | Query.mk _ _ _ l _ _ => l

def Query.offset : Query → Option Expr
  | Query.mk _ _ _ _ o _ => o

def Query.fetch : Query → Option Expr
  | Query.mk _ _ _ _ _ f => f

/-- Ordered append-only list of bound values (struct ParameterSet). -/
structure ParameterSet where
  values : List Value

/-- Appends a value and returns its zero-based storage position together
with the grown set (ParameterSet::add, with the mutation made explicit). -/
def ParameterSet.add (ps : ParameterSet) (v : Value) : Nat × ParameterSet :=
  (ps.values.length, ParameterSet.mk (ps.values ++ [v]))

/-- One-based lookup (impl Parameters for ParameterSet, fn get): indices in
1..=len return a clone of the stored value, anything else is a NotFound
error whose label is the dollar sign followed by the numeric index. -/
def ParameterSet.get (ps : ParameterSet) (i : Nat) : Except Error Value :=
  if h : 0 < i ∧ i ≤ ps.values.length then
    Except.ok (ps.values.get ⟨i - 1, by omega⟩)
  else
    Except.error (Error.Notfound ("$" ++ toString i))

/-- The Parameters trait object: anything mapping an index to a value or an
error. -/
structure Parameters where
  get : Nat → Except Error Value

def ParameterSet.params (ps : ParameterSet) : Parameters :=
  Parameters.mk ps.get

def USIZE_MAX : Nat := 2 ^ 64 - 1

/-- Rust unsigned-integer parsing as used by str::parse::<usize>(): an
optional leading plus sign, then one or more ASCII digits, rejecting
overflow past usize::MAX; anything else is a parse error. -/
def parse_usize (cs : List Char) : Option Nat :=
  let ds := match cs with
    | c :: rest => if c = '+' then rest else c :: rest
    | [] => []
  if ds.isEmpty then none
  else if ds.all (fun c => c.isDigit) then
    let n := ds.foldl (fun a c => a * 10 + (c.toNat - 48)) 0
    if n ≤ USIZE_MAX then some n else none
  else none

/-- Embedding of fn placeholder_to_usize. The source slices the UTF-8 byte
array of the placeholder text from position 1 and revalidates the tail with
String::from_utf8(..).unwrap(). Slicing an empty string is an out-of-bounds
abort; when the first character occupies more than one byte the remaining
bytes begin with a UTF-8 continuation byte and can never form a valid
string, so the unwrap aborts; when the first character is a single byte the
remaining bytes are exactly the encoding of the remaining characters. The
tail is then parsed as an unsigned integer, defaulting to 0 on parse
failure (unwrap_or). -/
def placeholder_to_usize (p : String) : Outcome Nat :=
  match p.data with
  | [] => Outcome.panic
  | c :: rest =>
    if c.utf8Size = 1 then Outcome.ok ((parse_usize rest).getD 0)
    else Outcome.panic

/-- Embedding of fn resolve: parse the placeholder text to an index, then
look it up in the parameter source. -/
def resolve (ps : Parameters) (p : String) : Outcome Value :=
  match placeholder_to_usize p with
  | Outcome.ok i =>
    match ps.get i with
    | Except.ok v => Outcome.ok v
    | Except.error e => Outcome.err e
  | Outcome.err e => Outcome.err e
  | Outcome.panic => Outcome.panic

mutual
/-- Conversion of a bound value into a literal expression node
(impl From<Value> for Expr in src/value.rs). -/
def Value.to_expression : Value → Expr
  | Value.Bool bv => Expr.Value (AstValue.Boolean bv)
  | Value.Number n => Expr.Value (AstValue.Number n false)
  | Value.String s => Expr.Value (AstValue.SingleQuotedString s)
  | Value.TypedString typ s =>
    Expr.TypedString
      (if typ = "datetime" ∨ typ = "date" then DataType.Date else DataType.Unspecified) s
  | Value.Array vs => Expr.Array (Value.to_expression_list vs) false
  | Value.Dict pairs => Expr.Map (Value.to_expression_pairs pairs)
  | Value.Null => Expr.Value AstValue.Null

/-- Elementwise conversion of array elements, in order. -/
def Value.to_expression_list : List Value → List Expr
  | [] => []
  | v :: rest => Value.to_expression v :: Value.to_expression_list rest

/-- Pairwise conversion of dictionary entries, in insertion order. -/
def Value.to_expression_pairs : List (Value × Value) → List (Expr × Expr)
  | [] => []
  | (k, v) :: rest =>
    (Value.to_expression k, Value.to_expression v) :: Value.to_expression_pairs rest
end

mutual
/-- Embedding of fn resolve_parameters_expr: in-place recursive placeholder
substitution over one expression node. A placeholder literal is replaced by
the conversion of its resolved value; handled composite shapes recurse into
their structural children in source order, keeping partial rewrites and
stopping at the first non-ok outcome; every other shape falls to the default
arm and is returned unchanged with a success outcome. -/
def resolve_parameters_expr (ps : Parameters) (x : Expr) : Expr × Outcome Unit :=
  match x with
  | Expr.Value (AstValue.Placeholder p) =>
    match resolve ps p with
    | Outcome.ok v => (Value.to_expression v, Outcome.ok ())
    | Outcome.err e => (Expr.Value (AstValue.Placeholder p), Outcome.err e)
    | Outcome.panic => (Expr.Value (AstValue.Placeholder p), Outcome.panic)
  | Expr.IsNull b =>
    let r := resolve_parameters_expr ps b
    (Expr.IsNull r.1, r.2)
  | Expr.IsNotNull b =>
    let r := resolve_parameters_expr ps b
    (Expr.IsNotNull r.1, r.2)
  | Expr.InList e l neg =>
    let r := resolve_parameters_expr ps e
    match r.2 with
    | Outcome.ok _ =>
      let rl := resolve_expr_list ps l
      (Expr.InList r.1 rl.1 neg, rl.2)
    | out => (Expr.InList r.1 l neg, out)
  | Expr.InSubquery e q neg =>
    let r := resolve_parameters_expr ps e
    match r.2 with
    | Outcome.ok _ =>
      let rq := resolve_parameters_query ps q
      (Expr.InSubquery r.1 rq.1 neg, rq.2)
    | out => (Expr.InSubquery r.1 q neg, out)
  | Expr.Between e neg lo hi =>
    let r := resolve_parameters_expr ps e
    match r.2 with
    | Outcome.ok _ =>
      let rl := resolve_parameters_expr ps lo
      match rl.2 with
      | Outcome.ok _ =>
        let rh := resolve_parameters_expr ps hi
        (Expr.Between r.1 neg rl.1 rh.1, rh.2)
      | out => (Expr.Between r.1 neg rl.1 hi, out)
    | out => (Expr.Between r.1 neg lo hi, out)
  | Expr.Like e neg pat esc =>
    let r := resolve_parameters_expr ps e
    match r.2 with
    | Outcome.ok _ =>
      let rp := resolve_parameters_expr ps pat
      (Expr.Like r.1 neg rp.1 esc, rp.2)
    | out => (Expr.Like r.1 neg pat esc, out)
  | Expr.ILike e neg pat esc =>
    let r := resolve_parameters_expr ps e
    match r.2 with
    | Outcome.ok _ =>
      let rp := resolve_parameters_expr ps pat
      (Expr.ILike r.1 neg rp.1 esc, rp.2)
    | out => (Expr.ILike r.1 neg pat esc, out)
  | Expr.BinaryOp l op rgt =>
    let r := resolve_parameters_expr ps l
    match r.2 with
    | Outcome.ok _ =>
      let rr := resolve_parameters_expr ps rgt
      (Expr.BinaryOp r.1 op rr.1, rr.2)
    | out => (Expr.BinaryOp r.1 op rgt, out)
  | Expr.UnaryOp op e =>
    let r := resolve_parameters_expr ps e
    (Expr.UnaryOp op r.1, r.2)
  | Expr.Nested b =>
    let r := resolve_parameters_expr ps b
    (Expr.Nested r.1, r.2)
  | Expr.Exists q neg =>
    let rq := resolve_parameters_query ps q
    (Expr.Exists rq.1 neg, rq.2)
  | Expr.Subquery q =>
    let rq := resolve_parameters_query ps q
    (Expr.Subquery rq.1, rq.2)
  | Expr.Case op conds ress els =>
    let rop : Option Expr × Outcome Unit :=
      match op with
      | some v =>
        let r := resolve_parameters_expr ps v
        (some r.1, r.2)
      | none => (none, Outcome.ok ())
    match rop.2 with
    | Outcome.ok _ =>
      let rc := resolve_expr_list ps conds
      match rc.2 with
      | Outcome.ok _ =>
        let rr := resolve_expr_list ps ress
        match rr.2 with
        | Outcome.ok _ =>
          match els with
          | some v =>
            let re := resolve_parameters_expr ps v
            (Expr.Case rop.1 rc.1 rr.1 (some re.1), re.2)
          | none => (Expr.Case rop.1 rc.1 rr.1 none, Outcome.ok ())
        | out => (Expr.Case rop.1 rc.1 rr.1 els, out)
      | out => (Expr.Case rop.1 rc.1 ress els, out)
    | out => (Expr.Case rop.1 conds ress els, out)
  | Expr.Interval v qual =>
    let r := resolve_parameters_expr ps v
    (Expr.Interval r.1 qual, r.2)
  | Expr.Array l named =>
    let rl := resolve_expr_list ps l
    (Expr.Array rl.1 named, rl.2)
  | Expr.Value (AstValue.Boolean b) => (Expr.Value (AstValue.Boolean b), Outcome.ok ())
  | Expr.Value (AstValue.Number n flag) => (Expr.Value (AstValue.Number n flag), Outcome.ok ())
  | Expr.Value (AstValue.SingleQuotedString s) =>
    (Expr.Value (AstValue.SingleQuotedString s), Outcome.ok ())
  | Expr.Value AstValue.Null => (Expr.Value AstValue.Null, Outcome.ok ())
  | Expr.TypedString dt s => (Expr.TypedString dt s, Outcome.ok ())
  | Expr.Map entries => (Expr.Map entries, Outcome.ok ())
  | Expr.Identifier n => (Expr.Identifier n, Outcome.ok ())
  | Expr.CompoundIdentifier ns => (Expr.CompoundIdentifier ns, Outcome.ok ())
  | Expr.Function n args => (Expr.Function n args, Outcome.ok ())
  | Expr.Tuple es => (Expr.Tuple es, Outcome.ok ())

/-- In-place resolution of each expression of a list in order, keeping the
elements already rewritten when a later element fails. -/
def resolve_expr_list (ps : Parameters) (xs : List Expr) : List Expr × Outcome Unit :=
  match xs with
  | [] => ([], Outcome.ok ())
  | x :: rest =>
    let r := resolve_parameters_expr ps x
    match r.2 with
    | Outcome.ok _ =>
      let rr := resolve_expr_list ps rest
      (r.1 :: rr.1, rr.2)
    | out => (r.1 :: rest, out)

/-- Embedding of fn resolve_parameters_query: dispatches on the query body.
A select body resolves, in source order, the optional selection, the
projection items, the explicit group-by expressions and the optional having
clause; a values body resolves every expression of every row; every other
body shape reaches the todo marker, an unconditional abort. All query-level
clauses outside the body are carried over unchanged. -/
def resolve_parameters_query (ps : Parameters) (q : Query) : Query × Outcome Unit :=
  match q with
  | Query.mk w body ob lim off f =>
    match body with
    | SetExpr.Select sb =>
      let r := resolve_select_body ps sb
      (Query.mk w (SetExpr.Select r.1) ob lim off f, r.2)
    | SetExpr.Values rows =>
      let r := resolve_rows ps rows
      (Query.mk w (SetExpr.Values r.1) ob lim off f, r.2)
    | SetExpr.SetOperation op lft rgt =>
      (Query.mk w (SetExpr.SetOperation op lft rgt) ob lim off f, Outcome.panic)
    | SetExpr.QueryBody q2 =>
      (Query.mk w (SetExpr.QueryBody q2) ob lim off f, Outcome.panic)
    | SetExpr.Table => (Query.mk w SetExpr.Table ob lim off f, Outcome.panic)

/-- Select-body part of resolve_parameters_query, in source order: selection,
projection, group-by expressions, having. -/
def resolve_select_body (ps : Parameters) (sb : SelectBody) : SelectBody × Outcome Unit :=
  match sb with
  | SelectBody.mk proj sel gb hav =>
    let rsel : Option Expr × Outcome Unit :=
      match sel with
      | some e =>
        let r := resolve_parameters_expr ps e
        (some r.1, r.2)
      | none => (none, Outcome.ok ())
    match rsel.2 with
    | Outcome.ok _ =>
      let rproj := resolve_select_items ps proj
      match rproj.2 with
      | Outcome.ok _ =>
        let rgb : GroupByExpr × Outcome Unit :=
          match gb with
          | GroupByExpr.Expressions es mods =>
            let r := resolve_expr_list ps es
            (GroupByExpr.Expressions r.1 mods, r.2)
          | GroupByExpr.All => (GroupByExpr.All, Outcome.ok ())
        match rgb.2 with
        | Outcome.ok _ =>
          match hav with
          | some e =>
            let r := resolve_parameters_expr ps e
            (SelectBody.mk rproj.1 rsel.1 rgb.1 (some r.1), r.2)
          | none => (SelectBody.mk rproj.1 rsel.1 rgb.1 none, Outcome.ok ())
        | out => (SelectBody.mk rproj.1 rsel.1 rgb.1 hav, out)
      | out => (SelectBody.mk rproj.1 rsel.1 gb hav, out)
    | out => (SelectBody.mk proj rsel.1 gb hav, out)

/-- Projection items: bare expressions and aliased expressions are resolved,
every other item shape is left unchanged. -/
def resolve_select_items (ps : Parameters) (items : List SelectItem) :
    List SelectItem × Outcome Unit :=
  match items with
  | [] => ([], Outcome.ok ())
  | SelectItem.UnnamedExpr e :: rest =>
    let r := resolve_parameters_expr ps e
    match r.2 with
    | Outcome.ok _ =>
      let rr := resolve_select_items ps rest
      (SelectItem.UnnamedExpr r.1 :: rr.1, rr.2)
    | out => (SelectItem.UnnamedExpr r.1 :: rest, out)
  | SelectItem.ExprWithAlias e a :: rest =>
    let r := resolve_parameters_expr ps e
    match r.2 with
    | Outcome.ok _ =>
      let rr := resolve_select_items ps rest
      (SelectItem.ExprWithAlias r.1 a :: rr.1, rr.2)
    | out => (SelectItem.ExprWithAlias r.1 a :: rest, out)
  | SelectItem.QualifiedWildcard n :: rest =>
    let rr := resolve_select_items ps rest
    (SelectItem.QualifiedWildcard n :: rr.1, rr.2)
  | SelectItem.Wildcard :: rest =>
    let rr := resolve_select_items ps rest
    (SelectItem.Wildcard :: rr.1, rr.2)

/-- Rows of a values body: every expression of every row, in order. -/
def resolve_rows (ps : Parameters) (rows : List (List Expr)) :
    List (List Expr) × Outcome Unit :=
  match rows with
  | [] => ([], Outcome.ok ())
  | row :: rest =>
    let r := resolve_expr_list ps row
    match r.2 with
    | Outcome.ok _ =>
      let rr := resolve_rows ps rest
      (r.1 :: rr.1, rr.2)
    | out => (r.1 :: rest, out)
end

/-- One update assignment (sqlparser ast::Assignment): a target carried as
plain data and the right-hand-side value expression. -/
structure Assignment where
  target : String
  value : Expr

/-- Top-level statements (sqlparser ast::Statement restricted to the shapes
the statement resolver dispatches on, with every remaining shape represented
by the opaque default). Payload positions the resolver never inspects are
carried as plain data. -/
inductive Statement where
  | Query : Query → Statement
  | Insert : String → List String → Option Query → Statement
  | Update : String → List Assignment → Option String → Option Expr →
      Option (List SelectItem) → Statement
  | Delete : List String → Option Expr → Statement
  | CreateTable : String → Option Query → Statement
  | Other : String → Statement

/-- In-place resolution of the value expression of each assignment in order,
keeping earlier rewrites when a later assignment fails. -/
def resolve_assignments (ps : Parameters) (xs : List Assignment) :
    List Assignment × Outcome Unit :=
  match xs with
  | [] => ([], Outcome.ok ())
  | a :: rest =>
    let r := resolve_parameters_expr ps a.value
    match r.2 with
    | Outcome.ok _ =>
      let rr := resolve_assignments ps rest
      (Assignment.mk a.target r.1 :: rr.1, rr.2)
    | out => (Assignment.mk a.target r.1 :: rest, out)

/-- Embedding of fn resolve_statement: a query statement delegates to the
query resolver; an insert resolves its source query when present; an update
whose selection is present resolves every assignment value and then the
selection; a delete resolves its selection when present; a create-table
resolves its nested query when present; everything else (including an update
whose selection is absent) falls to the default arm and is unchanged. -/
def resolve_statement (ps : Parameters) (s : Statement) : Statement × Outcome Unit :=
  match s with
  | Statement.Query q =>
    let r := resolve_parameters_query ps q
    (Statement.Query r.1, r.2)
  | Statement.Insert t cols (some src) =>
    let r := resolve_parameters_query ps src
    (Statement.Insert t cols (some r.1), r.2)
  | Statement.Insert t cols none => (Statement.Insert t cols none, Outcome.ok ())
  | Statement.Update t assigns fr (some e) ret =>
    let ra := resolve_assignments ps assigns
    match ra.2 with
    | Outcome.ok _ =>
      let re := resolve_parameters_expr ps e
      (Statement.Update t ra.1 fr (some re.1) ret, re.2)
    | out => (Statement.Update t ra.1 fr (some e) ret, out)
  | Statement.Update t assigns fr none ret =>
    (Statement.Update t assigns fr none ret, Outcome.ok ())
  | Statement.Delete tbls (some e) =>
    let r := resolve_parameters_expr ps e
    (Statement.Delete tbls (some r.1), r.2)
  | Statement.Delete tbls none => (Statement.Delete tbls none, Outcome.ok ())
  | Statement.CreateTable n (some q) =>
    let r := resolve_parameters_query ps q
    (Statement.CreateTable n (some r.1), r.2)
  | Statement.CreateTable n none => (Statement.CreateTable n none, Outcome.ok ())
  | Statement.Other d => (Statement.Other d, Outcome.ok ())

/-- Embedding of fn resolve_all: the statement traversal applies the
statement resolver to each statement in declaration order and breaks at the
first non-ok outcome; statements already visited keep their rewrites, the
failing statement keeps its partial rewrites, and later statements are not
visited. (The statement shapes modelled here contain no nested statements,
so the pre-order traversal of the external utility visits exactly the
top-level sequence.) -/
def resolve_all (ps : Parameters) (ss : List Statement) : List Statement × Outcome Unit :=
  match ss with
  | [] => ([], Outcome.ok ())
  | s :: rest =>
    let r := resolve_statement ps s
    match r.2 with
    | Outcome.ok _ =>
      let rr := resolve_all ps rest
      (r.1 :: rr.1, rr.2)
    | out => (r.1 :: rest, out)

/-- Variant discriminant of a bound value, used to state that distinct value
variants convert to syntactically distinguishable literal node shapes. -/
def Value.tag : Value → Nat
  | Value.Bool _ => 0
  | Value.Number _ => 1
  | Value.String _ => 2
  | Value.TypedString _ _ => 3
  | Value.Array _ => 4
  | Value.Dict _ => 5
  | Value.Null => 6

/-- Head shape of an expression node, distinguishing the seven literal node
shapes the value conversion can produce; every other expression shape shares
one leftover discriminant. -/
def exprHeadShape : Expr → Nat
  | Expr.Value (AstValue.Boolean _) => 0
  | Expr.Value (AstValue.Number _ _) => 1
  | Expr.Value (AstValue.SingleQuotedString _) => 2
  | Expr.TypedString _ _ => 3
  | Expr.Array _ _ => 4
  | Expr.Map _ => 5
  | Expr.Value AstValue.Null => 6
  | _ => 7

/-- Returns true exactly on the expression shapes the expression resolver
handles with a dedicated match arm: a placeholder literal and the sixteen
composite shapes it recurses into. -/
def exprHandled : Expr → Bool
  | Expr.Value (AstValue.Placeholder _) => true
  | Expr.IsNull _ => true
  | Expr.IsNotNull _ => true
  | Expr.InList _ _ _ => true
  | Expr.InSubquery _ _ _ => true
  | Expr.Between _ _ _ _ => true
  | Expr.Like _ _ _ _ => true
  | Expr.ILike _ _ _ _ => true
  | Expr.BinaryOp _ _ _ => true
  | Expr.UnaryOp _ _ => true
  | Expr.Nested _ => true
  | Expr.Exists _ _ => true
  | Expr.Subquery _ => true
  | Expr.Case _ _ _ _ => true
  | Expr.Interval _ _ => true
  | Expr.Array _ _ => true
  | _ => false

theorem to_expression_list_eq_map (vs : List Value) :
    Value.to_expression_list vs = vs.map Value.to_expression := by
  induction vs with
  | nil => rfl
  | cons v rest ih => simp [Value.to_expression_list, ih]

theorem to_expression_pairs_eq_map (pairs : List (Value × Value)) :
    Value.to_expression_pairs pairs
      = pairs.map (fun kv => (Value.to_expression kv.1, Value.to_expression kv.2)) := by
  induction pairs with
  | nil => rfl
  | cons kv rest ih =>
    cases kv
    simp [Value.to_expression_pairs, ih]

/-- Unfolding of resolve once the placeholder text has parsed to an index:
the outcome is the lookup in the parameter source. -/
theorem resolve_eq_of_parse (ps : Parameters) (p : String) (i : Nat)
    (hp : placeholder_to_usize p = Outcome.ok i) :
    resolve ps p = (match ps.get i with
      | Except.ok v => Outcome.ok v
      | Except.error e => Outcome.err e) := by
  unfold resolve
  rw [hp]

/-- Unfolding of the expression resolver on a placeholder literal node. -/
theorem resolve_parameters_expr_placeholder (ps : Parameters) (p : String) :
    resolve_parameters_expr ps (Expr.Value (AstValue.Placeholder p))
      = (match resolve ps p with
         | Outcome.ok v => (Value.to_expression v, Outcome.ok ())
         | Outcome.err e => (Expr.Value (AstValue.Placeholder p), Outcome.err e)
         | Outcome.panic => (Expr.Value (AstValue.Placeholder p), Outcome.panic)) := rfl

/-- C1: for a parameter set holding N bound values and any one-based index i
with 1 <= i <= N, resolving a placeholder expression node whose text parses
to i replaces the node with exactly the conversion of the i-th bound value
and returns success. -/
theorem resolve_placeholder_in_range (ps : ParameterSet) (p : String) (i : Nat)
    (hp : placeholder_to_usize p = Outcome.ok i)
    (h1 : 1 ≤ i) (h2 : i ≤ ps.values.length) :
    resolve_parameters_expr ps.params (Expr.Value (AstValue.Placeholder p))
      = (Value.to_expression (ps.values.get ⟨i - 1, by omega⟩), Outcome.ok ()) := by
  have hget : ps.params.get i = Except.ok (ps.values.get ⟨i - 1, by omega⟩) := by
    show ps.get i = _
    unfold ParameterSet.get
    rw [dif_pos ⟨by omega, h2⟩]
  have hres : resolve ps.params p
      = Outcome.ok (ps.values.get ⟨i - 1, by omega⟩) := by
    rw [resolve_eq_of_parse ps.params p i hp, hget]
  rw [resolve_parameters_expr_placeholder, hres]

/-- Witness for C1 at a concrete one-element set and the placeholder text
for index 1. -/
theorem resolve_placeholder_in_range_witness :
    resolve_parameters_expr (ParameterSet.mk [Value.Bool true]).params
        (Expr.Value (AstValue.Placeholder "$1"))
      = (Expr.Value (AstValue.Boolean true), Outcome.ok ()) :=
  resolve_placeholder_in_range (ParameterSet.mk [Value.Bool true]) "$1" 1
    (by decide) (by decide) (by decide)

/-- C2: the value conversion is total and deterministic, maps every variant
to the stated literal node shape (boolean, numeric, single-quoted string,
typed literal whose declared type is Date exactly on the date and datetime
tags, ordered array of the recursively converted elements, ordered map of the
recursively converted pairs in insertion order, null), and distinct value
variants produce syntactically distinguishable head shapes. -/
theorem to_expression_characterization :
    (∀ b, Value.to_expression (Value.Bool b) = Expr.Value (AstValue.Boolean b))
    ∧ (∀ n, Value.to_expression (Value.Number n) = Expr.Value (AstValue.Number n false))
    ∧ (∀ s, Value.to_expression (Value.String s)
        = Expr.Value (AstValue.SingleQuotedString s))
    ∧ (∀ t s, Value.to_expression (Value.TypedString t s)
        = Expr.TypedString
            (if t = "datetime" ∨ t = "date" then DataType.Date else DataType.Unspecified) s)
    ∧ (∀ vs, Value.to_expression (Value.Array vs)
        = Expr.Array (vs.map Value.to_expression) false)
    ∧ (∀ pairs, Value.to_expression (Value.Dict pairs)
        = Expr.Map (pairs.map (fun kv => (Value.to_expression kv.1, Value.to_expression kv.2))))
    ∧ (Value.to_expression Value.Null = Expr.Value AstValue.Null)
    ∧ (∀ v, exprHeadShape (Value.to_expression v) = Value.tag v) := by
  refine ⟨fun b => rfl, fun n => rfl, fun s => rfl, fun t s => rfl, ?_, ?_, rfl, ?_⟩
  · intro vs
    simp [Value.to_expression, to_expression_list_eq_map]
  · intro pairs
    simp [Value.to_expression, to_expression_pairs_eq_map]
  · intro v
    cases v <;> rfl

/-- C3 counterexample: for the empty set and the out-of-range placeholder
text with redundant leading zeroes, the carried label is rebuilt from the
parsed numeric index and differs from the original placeholder text. -/
theorem notfound_label_counterexample :
    resolve (ParameterSet.mk []).params "$007" = Outcome.err (Error.Notfound "$7")
    ∧ ("$7" : String) ≠ "$007" := ⟨rfl, by decide⟩

/-- C3 amended: looking up an index that is zero or beyond the bound count
fails with NotFound whose label is the dollar sign followed by the decimal
rendering of the parsed index; this equals the original placeholder text
exactly when that text is the canonical dollar-digits spelling of the
index. -/
theorem resolve_out_of_range (ps : ParameterSet) (p : String) (i : Nat)
    (hp : placeholder_to_usize p = Outcome.ok i)
    (hout : i = 0 ∨ ps.values.length < i) :
    resolve ps.params p = Outcome.err (Error.Notfound ("$" ++ toString i)) := by
  have hget : ps.params.get i
      = Except.error (Error.Notfound ("$" ++ toString i)) := by
    show ps.get i = _
    unfold ParameterSet.get
    rw [dif_neg (by omega)]
  rw [resolve_eq_of_parse ps.params p i hp, hget]

/-- Witness for the amended C3 at index 5 against the empty set. -/
theorem resolve_out_of_range_witness :
    resolve (ParameterSet.mk []).params "$5"
      = Outcome.err (Error.Notfound ("$" ++ toString 5)) :=
  resolve_out_of_range (ParameterSet.mk []) "$5" 5 (by decide) (by decide)

/-- C4: a query whose body is neither a plain select body nor a values body
makes the query resolver abort unconditionally, for every parameter
source. -/
theorem resolve_query_unsupported_body (ps : Parameters) (q : Query)
    (hs : ∀ sb, Query.body q ≠ SetExpr.Select sb)
    (hv : ∀ rows, Query.body q ≠ SetExpr.Values rows) :
    (resolve_parameters_query ps q).2 = Outcome.panic := by
  obtain ⟨w, body, ob, l, o, f⟩ := q
  cases body with
  | Select sb => exact absurd rfl (hs sb)
  | Values rows => exact absurd rfl (hv rows)
  | SetOperation op lft rgt => rfl
  | QueryBody q2 => rfl
  | Table => rfl

/-- Witness for C4 on a set-operation body. -/
theorem resolve_query_unsupported_body_witness :
    (resolve_parameters_query (ParameterSet.mk []).params
        (Query.mk none (SetExpr.SetOperation "UNION" SetExpr.Table SetExpr.Table)
          [] none none none)).2 = Outcome.panic :=
  resolve_query_unsupported_body (ParameterSet.mk []).params
    (Query.mk none (SetExpr.SetOperation "UNION" SetExpr.Table SetExpr.Table)
      [] none none none)
    (fun _ h => nomatch h) (fun _ h => nomatch h)

/-- C5: an update statement whose WHERE predicate is absent is returned
entirely unchanged with success, even when its assignment right-hand sides
contain placeholders. -/
theorem resolve_update_without_where (ps : Parameters) (t : String)
    (assigns : List Assignment) (fr : Option String)
    (ret : Option (List SelectItem)) :
    resolve_statement ps (Statement.Update t assigns fr none ret)
      = (Statement.Update t assigns fr none ret, Outcome.ok ()) := rfl

/-- C6 amended: when the first statement resolves and the second fails, the
batch driver keeps the first statement's resolved form, keeps the second in
the partially rewritten state its resolution reached (equal to the original
exactly when the failing placeholder was the first one encountered there),
leaves the third exactly as originally parsed without visiting it, and
returns the error. -/
theorem resolve_all_short_circuit (ps : Parameters) (s1 s2 s3 s1r s2r : Statement)
    (e : Error)
    (h1 : resolve_statement ps s1 = (s1r, Outcome.ok ()))
    (h2 : resolve_statement ps s2 = (s2r, Outcome.err e)) :
    resolve_all ps [s1, s2, s3] = ([s1r, s2r, s3], Outcome.err e) := by
  simp [resolve_all, h1, h2]

/-- Witness for the amended C6 on a concrete three-statement batch. -/
theorem resolve_all_short_circuit_witness :
    resolve_all (ParameterSet.mk []).params
        [Statement.Other "a",
         Statement.Delete [] (some (Expr.Value (AstValue.Placeholder "$9"))),
         Statement.Other "c"]
      = ([Statement.Other "a",
          Statement.Delete [] (some (Expr.Value (AstValue.Placeholder "$9"))),
          Statement.Other "c"],
         Outcome.err (Error.Notfound "$9")) :=
  resolve_all_short_circuit (ParameterSet.mk []).params
    (Statement.Other "a")
    (Statement.Delete [] (some (Expr.Value (AstValue.Placeholder "$9"))))
    (Statement.Other "c")
    (Statement.Other "a")
    (Statement.Delete [] (some (Expr.Value (AstValue.Placeholder "$9"))))
    (Error.Notfound "$9") rfl rfl

/-- Bound set for the batch counterexample: exactly one bound value. -/
def batchParams : ParameterSet := ParameterSet.mk [Value.Bool true]

/-- First batch statement: a delete with a resolvable placeholder. -/
def batchFirst : Statement :=
  Statement.Delete [] (some (Expr.Value (AstValue.Placeholder "$1")))

/-- Second batch statement: its predicate holds a resolvable placeholder to
the left of an unresolvable one. -/
def batchSecond : Statement :=
  Statement.Delete [] (some (Expr.BinaryOp (Expr.Value (AstValue.Placeholder "$1"))
    "AND" (Expr.Value (AstValue.Placeholder "$2"))))

/-- Third batch statement: no placeholders. -/
def batchThird : Statement := Statement.Other "third"

/-- C6 counterexample: only the second statement contains an unresolvable
placeholder, yet after the failing run the second statement is not as
originally parsed - its first placeholder was already rewritten before the
failure. -/
theorem batch_counterexample :
    resolve_all batchParams.params [batchFirst, batchSecond, batchThird]
      = ([Statement.Delete [] (some (Expr.Value (AstValue.Boolean true))),
          Statement.Delete [] (some (Expr.BinaryOp (Expr.Value (AstValue.Boolean true))
            "AND" (Expr.Value (AstValue.Placeholder "$2")))),
          Statement.Other "third"],
         Outcome.err (Error.Notfound "$2"))
    ∧ Statement.Delete [] (some (Expr.BinaryOp (Expr.Value (AstValue.Boolean true))
        "AND" (Expr.Value (AstValue.Placeholder "$2")))) ≠ batchSecond := by
  refine ⟨rfl, ?_⟩
  simp [batchSecond]

/-- C7: every expression shape without a dedicated arm in the expression
resolver is returned unchanged with success, its whole subtree included. -/
theorem resolve_unhandled_expr (ps : Parameters) (x : Expr)
    (h : exprHandled x = false) :
    resolve_parameters_expr ps x = (x, Outcome.ok ()) := by
  cases x with
  | Value v => cases v <;> first | rfl | simp [exprHandled] at h
  | TypedString dt s => rfl
  | IsNull e => simp [exprHandled] at h
  | IsNotNull e => simp [exprHandled] at h
  | InList e l neg => simp [exprHandled] at h
  | InSubquery e q neg => simp [exprHandled] at h
  | Between e neg lo hi => simp [exprHandled] at h
  | Like e neg pat esc => simp [exprHandled] at h
  | ILike e neg pat esc => simp [exprHandled] at h
  | BinaryOp l op rgt => simp [exprHandled] at h
  | UnaryOp op e => simp [exprHandled] at h
  | Nested e => simp [exprHandled] at h
  | Exists q neg => simp [exprHandled] at h
  | Subquery q => simp [exprHandled] at h
  | Case op conds ress els => simp [exprHandled] at h
  | Interval v qual => simp [exprHandled] at h
  | Array l named => simp [exprHandled] at h
  | Map entries => rfl
  | Identifier n => rfl
  | CompoundIdentifier ns => rfl
  | Function n args => rfl
  | Tuple es => rfl

/-- Witness for C7 on a plain column reference containing nothing to
resolve. -/
theorem resolve_unhandled_expr_witness :
    resolve_parameters_expr (ParameterSet.mk []).params (Expr.Identifier "col")
      = (Expr.Identifier "col", Outcome.ok ()) :=
  resolve_unhandled_expr (ParameterSet.mk []).params (Expr.Identifier "col") rfl

/-- C8 counterexample: a non-empty placeholder text consisting of one
multi-byte character has no digit characters after the leading marker, yet
resolution aborts rather than failing with NotFound. -/
theorem malformed_placeholder_counterexample :
    ("€" : String) ≠ ""
    ∧ resolve (ParameterSet.mk []).params "€" = Outcome.panic
    ∧ Outcome.isNotfoundErr (resolve (ParameterSet.mk []).params "€") = false :=
  ⟨by decide, rfl, rfl⟩

/-- C8 amended: for every non-empty placeholder text whose leading marker
character is a single byte and whose remaining characters do not parse as an
unsigned integer, the parsed index defaults to 0, which is out of range for
every parameter set, so resolution fails with NotFound. -/
theorem malformed_placeholder_notfound (ps : ParameterSet) (c : Char)
    (cs : List Char) (hc : c.utf8Size = 1) (hparse : parse_usize cs = none) :
    resolve ps.params (String.mk (c :: cs))
      = Outcome.err (Error.Notfound "$0") := by
  have hp : placeholder_to_usize (String.mk (c :: cs)) = Outcome.ok 0 := by
    simp [placeholder_to_usize, hc, hparse]
  have hget : ps.params.get 0 = Except.error (Error.Notfound "$0") := by
    show ps.get 0 = _
    unfold ParameterSet.get
    rw [dif_neg (by omega)]
    rfl
  rw [resolve_eq_of_parse ps.params (String.mk (c :: cs)) 0 hp, hget]

/-- Witness for the amended C8 on a marker followed by a non-digit. -/
theorem malformed_placeholder_notfound_witness :
    resolve (ParameterSet.mk []).params (String.mk ['$', 'x'])
      = Outcome.err (Error.Notfound "$0") :=
  malformed_placeholder_notfound (ParameterSet.mk []) '$' ['x']
    (by decide) (by decide)

/-- C9: placeholder parsing is not total in its text argument - on the empty
string (whose byte array cannot be sliced from position 1) and on a string
whose leading character is multi-byte (whose sliced bytes are not valid
UTF-8) resolution aborts instead of returning an error, for every parameter
source. -/
theorem resolve_aborts_on_unsliceable_text (ps : Parameters) :
    resolve ps "" = Outcome.panic ∧ resolve ps "€" = Outcome.panic := ⟨rfl, rfl⟩

/-- C10: the query resolver inspects only the body - the with, order-by,
limit, offset and fetch clauses of every query are returned unchanged, for
every parameter source, so placeholders there are never resolved. -/
theorem resolve_query_frame (ps : Parameters) (q : Query) :
    (resolve_parameters_query ps q).1.with_ = q.with_
    ∧ (resolve_parameters_query ps q).1.order_by = q.order_by
    ∧ (resolve_parameters_query ps q).1.limit = q.limit
    ∧ (resolve_parameters_query ps q).1.offset = q.offset
    ∧ (resolve_parameters_query ps q).1.fetch = q.fetch := by
  obtain ⟨w, body, ob, l, o, f⟩ := q
  cases body <;>
    simp [resolve_parameters_query, Query.with_, Query.order_by, Query.limit,
      Query.offset, Query.fetch]
